import Mathlib

/-!
Verification development for the Python ↔ GRT dictionary bridge
(`python_grtdict.cpp`): a shallow embedding of the adapter's operations
(`dict_init`, `dict_ass_subscript`, `dict_has_key`, `dict_items`,
`dict_setdefault`, `dict_iter`, `dictiter_iter`, `dictiter_iternext`)
together with a model of the external collaborators (`grt::DictRef`,
the Python context's value conversion) taken from the specification,
since their implementations live outside the sources at hand.
-/

set_option autoImplicit false

/-- GRT value kinds (`grt::Type`), restricted to the kinds this bridge touches. -/
inductive GrtType where
  | IntegerType
  | DoubleType
  | StringType
  | DictType
  | ObjectType
  | AnyType
  | UnknownType
deriving DecidableEq, Repr

/-- Runtime values (`grt::ValueRef`).  `invalid` is the empty/invalid sentinel
(`ValueRef()`); nested containers are not needed by any claim, so values are atomic. -/
inductive ValueRef where
  | invalid
  | intV (n : Int)
  | stringV (s : String)
  | objectV (cls : String) (id : Nat)
deriving DecidableEq, Repr

/-- Modelled from the spec: `RuntimeDict` (`grt::DictRef`, not under the given
sources) is an ordered mapping from unique string keys to runtime values,
optionally constrained to one content value-kind and (for object content) a
class name; insertion order is preserved and is the canonical iteration order. -/
structure DictRef where
  content_type : GrtType := .AnyType
  content_class : String := ""
  entries : List (String × ValueRef) := []
deriving DecidableEq, Repr

/-- Errors thrown by the GRT layer (`grt::bad_item`, `grt::type_error`). -/
inductive GrtError where
  | bad_item (key : String)
  | type_error (msg : String)
deriving DecidableEq, Repr

/-- Modelled from the spec: membership test of `grt::DictRef::has_key`. -/
def DictRef.has_key (d : DictRef) (k : String) : Bool :=
  d.entries.any (fun kv => kv.1 = k)

/-- Modelled from the spec: `grt::DictRef::get`; `none` stands for the
`grt::bad_item` exception thrown on a missing key. -/
def DictRef.get (d : DictRef) (k : String) : Option ValueRef :=
  (d.entries.find? (fun kv => kv.1 = k)).map (fun kv => kv.2)

/-- Modelled from the spec: `grt::DictRef::count`. -/
def DictRef.count (d : DictRef) : Nat :=
  d.entries.length

/-- Modelled from the spec: whether a value satisfies a dictionary's content
constraint (an unconstrained dictionary accepts everything; the explicit
empty value is always storable). -/
def ValueRef.conforms : ValueRef → GrtType → Bool
  | _, .AnyType => true
  | .invalid, _ => true
  | .intV _, t => t = .IntegerType
  | .stringV _, t => t = .StringType
  | .objectV _ _, t => t = .ObjectType

/-- Overwrite the value at an existing key in place, else append (insertion
order preserved, keys unique). -/
def setEntries : List (String × ValueRef) → String → ValueRef → List (String × ValueRef)
  | [], k, v => [(k, v)]
  | kv :: rest, k, v => if kv.1 = k then (k, v) :: rest else kv :: setEntries rest k v

/-- Modelled from the spec: `grt::DictRef::set`; a value violating the content
constraint makes the store fail with `BadItem`. -/
def DictRef.set (d : DictRef) (k : String) (v : ValueRef) : Except GrtError DictRef :=
  if v.conforms d.content_type then
    .ok { d with entries := setEntries d.entries k v }
  else
    .error (.bad_item k)

/-- Modelled from the spec: `grt::DictRef::remove` — a no-op when the key is missing. -/
def DictRef.remove (d : DictRef) (k : String) : DictRef :=
  { d with entries := d.entries.filter (fun kv => kv.1 ≠ k) }

/-- The empty, unconstrained dictionary (`grt::DictRef(true)`). -/
def emptyDict : DictRef := ⟨.AnyType, "", []⟩

/-- Host-side (Python) values, as far as the claims need them.  `noneV` is
`Py_None`; `pair` models a 2-tuple; `obj` an arbitrary other Python object. -/
inductive PyValue where
  | noneV
  | boolV (b : Bool)
  | intV (n : Int)
  | str (s : String)
  | pair (a b : PyValue)
  | obj (id : Nat)
deriving DecidableEq, Repr

/-- Python-level error states set through the C API.  `uncaught` marks a GRT
exception escaping the extension function untranslated (undefined behaviour
at the real boundary). -/
inductive PyErr where
  | KeyError (msg : String)
  | ValueError (msg : String)
  | TypeError (msg : String)
  | NameError (msg : String)
  | AttributeError (msg : String)
  | BadItem (key : String)
  | StopIteration
  | uncaught (e : GrtError)
deriving DecidableEq, Repr

/-- `PythonContext::set_python_error`: translation of GRT exceptions caught at
the adapter boundary. -/
def pyErrOfGrt : GrtError → PyErr
  | .bad_item k => .BadItem k
  | .type_error m => .TypeError m

/-- The embedding session (`PythonContext`), reduced to the conversion
operations the adapter consumes (`from_grt`, `from_pyobject`). -/
structure PythonContext where
  from_grt : ValueRef → PyValue
  from_pyobject : PyValue → ValueRef

/-- Modelled from the spec: a concrete `ToHost` conversion
(`PythonContext::from_grt`, not under the given sources) — total and
kind-preserving. -/
def ctx_from_grt : ValueRef → PyValue
  | .invalid => .noneV
  | .intV n => .intV n
  | .stringV s => .str s
  | .objectV _ i => .obj i

/-- Modelled from the spec: a concrete `ToRuntime` conversion
(`PythonContext::from_pyobject`, not under the given sources) — yields the
explicit `invalid` sentinel on host values with no runtime representation. -/
def ctx_from_pyobject : PyValue → ValueRef
  | .noneV => .invalid
  | .boolV b => .intV (if b then 1 else 0)
  | .intV n => .intV n
  | .str s => .stringV s
  | .pair _ _ => .invalid
  | .obj _ => .invalid

/-- A concrete live context used by witnesses and counterexamples. -/
def theCtx : PythonContext := ⟨ctx_from_grt, ctx_from_pyobject⟩

/-- `dict_ass_subscript` (subscript assignment/deletion).  Source order: the
string-key check, then the context lookup, then: a NULL value (`Option.none`
here) removes the key, `Py_None` stores the explicit empty runtime value,
anything else is converted — an invalid conversion result raises `ValueError`
without touching the dictionary, a valid one is stored (a `bad_item` from the
typed store is caught and translated).  The pair returned is
(Python-level result, dictionary state after the call). -/
def dict_ass_subscript (ctx? : Option PythonContext) (d : DictRef) (key : PyValue)
    (value : Option PyValue) : Except PyErr Unit × DictRef :=
  match key with
  | .str k =>
    match ctx? with
    | Option.none => (.error (.TypeError "no active Python context"), d)
    | some ctx =>
      match value with
      | Option.none => (.ok (), d.remove k)
      | some .noneV =>
        match d.set k .invalid with
        | .ok d' => (.ok (), d')
        | .error e => (.error (pyErrOfGrt e), d)
      | some v =>
        let vr := ctx.from_pyobject v
        if vr = .invalid then
          (.error (.ValueError "grt.Dict may only be assigned other GRT or string/numeric values"), d)
        else
          match d.set k vr with
          | .ok d' => (.ok (), d')
          | .error e => (.error (pyErrOfGrt e), d)
  | _ => (.error (.KeyError "grt.Dict key must be a string"), d)

/-- `dict_items` — the argument check comes first (`METH_NOARGS` passes NULL,
so `args` is `Option.none` on every real call), then the context lookup; the
result is the list of `(key, converted value)` 2-tuples in iteration order. -/
def dict_items (ctx? : Option PythonContext) (d : DictRef) (args : Option PyValue) :
    Except PyErr (List PyValue) :=
  match args with
  | some _ => .error (.ValueError "method takes no arguments")
  | Option.none =>
    match ctx? with
    | Option.none => .error (.TypeError "no active Python context")
    | some ctx => .ok (d.entries.map (fun kv => .pair (.str kv.1) (ctx.from_grt kv.2)))

/-- `dict_has_key`, the C function body: a NULL argument raises `ValueError`;
otherwise `PyUnicode_AsUTF8` yields NULL on a non-string (the body only checks
the pointer), so a non-string argument falls through to `found = false`. -/
def dict_has_key (d : DictRef) (arg : Option PyValue) : Except PyErr PyValue :=
  match arg with
  | Option.none => .error (.ValueError "missing required argument")
  | some a =>
    let key_to_find : Option String := match a with | .str s => some s | _ => Option.none
    let found : Bool := match key_to_find with | some k => d.has_key k | Option.none => false
    .ok (.boolV found)

/-- Invocation of `has_key` through its registration in `PyGRTDictMethods`,
which declares it `METH_NOARGS`: CPython rejects any call that passes
arguments with a `TypeError` before the C function runs, and a call with no
arguments invokes the C function with a NULL argument. -/
def call_has_key (d : DictRef) (callArgs : List PyValue) : Except PyErr PyValue :=
  match callArgs with
  | [] => dict_has_key d Option.none
  | _ :: _ => .error (.TypeError "has_key() takes no arguments")

/-- `dict_setdefault` (`setdefault(key, default=Py_None)`): a present key is
read back converted; an absent key first stores the converted default, then
unconditionally re-fetches `get(key)` — on the store-failure path that
re-fetch hits a missing key and the resulting `grt::bad_item` escapes the
`try` block uncaught (modelled by `PyErr.uncaught`). -/
def dict_setdefault (ctx? : Option PythonContext) (d : DictRef) (key : String)
    (def_ : PyValue) : Except PyErr PyValue × DictRef :=
  match ctx? with
  | Option.none => (.error (.TypeError "no active Python context"), d)
  | some ctx =>
    if d.has_key key then
      match d.get key with
      | some v => (.ok (ctx.from_grt v), d)
      | Option.none => (.error (.uncaught (.bad_item key)), d)
    else
      match d.set key (ctx.from_pyobject def_) with
      | .ok d' =>
        match d'.get key with
        | some v => (.ok (ctx.from_grt v), d')
        | Option.none => (.error (.uncaught (.bad_item key)), d')
      | .error _ =>
        match d.get key with
        | some v => (.ok (ctx.from_grt v), d)
        | Option.none => (.error (.uncaught (.bad_item key)), d)

/-- Modelled from the spec: `grt::str_to_type` (not under the given sources)
recognises the content-type names {integer, real, string, dict, object};
anything else maps to `UnknownType`. -/
def str_to_type : String → GrtType
  | "integer" => .IntegerType
  | "real" => .DoubleType
  | "string" => .StringType
  | "dict" => .DictType
  | "object" => .ObjectType
  | _ => .UnknownType

/-- Heap events on the adapter's owned `grt::DictRef*` handle: `free h` is
`delete` of the heap allocation `h`, `install h` is storing a freshly
allocated handle `h` into `self->dict`. -/
inductive MemEvent where
  | free (h : Nat)
  | install (h : Nat)
deriving DecidableEq, Repr

/-- Arguments of one `dict_init` call after `PyArg_ParseTupleAndKeywords`:
`parse_ok` is whether that parse succeeded; `valueptr` is the modelled outcome
of `value_from_internal_cobject` + `DictRef::cast_from` on `__valueptr__`
when it was passed (the chain itself lives outside the given sources). -/
structure InitArgs where
  parse_ok : Bool := true
  valueptr : Option (Except GrtError DictRef) := Option.none
  type : Option String := Option.none
  class_name : Option String := Option.none

/-- The `delete self->dict` at the top of `dict_init` (and in `dict_dealloc`):
deleting a NULL pointer is a no-op. -/
def initFrees : Option (Nat × DictRef) → List MemEvent
  | some (h, _) => [.free h]
  | Option.none => []

/-- `dict_init`.  `self` is the `self->dict` field before the call, as a heap
handle paired with its contents (`Option.none` is NULL); `newHandle` is the
identity the allocator gives a `new grt::DictRef`.  Returns the field after
the call, the Python-level result, and the heap events in program order.
Note that on the failure paths reached after the initial `delete`, the field
keeps its old (now dangling) value, exactly as in the source. -/
def dict_init (ctx? : Option PythonContext) (metaclasses : List String) (newHandle : Nat)
    (self : Option (Nat × DictRef)) (args : InitArgs) :
    Option (Nat × DictRef) × Except PyErr Unit × List MemEvent :=
  match ctx? with
  | Option.none => (self, .error (.TypeError "no active Python context"), [])
  | some _ =>
    if args.parse_ok = false then
      (self, .error (.TypeError "argument parsing failed"), [])
    else
      let fr := initFrees self
      match args.valueptr with
      | some (.ok content) =>
        (some (newHandle, content), .ok (), fr ++ [.install newHandle])
      | some (.error e) => (self, .error (pyErrOfGrt e), fr)
      | Option.none =>
        match args.type with
        | Option.none => (some (newHandle, emptyDict), .ok (), fr ++ [.install newHandle])
        | some t =>
          if str_to_type t = .UnknownType then
            (self, .error (.TypeError "grt type must be grt.integer, double, string, dict, dict or object"), fr)
          else
            match args.class_name with
            | some cn =>
              if metaclasses.contains cn then
                (some (newHandle, ⟨str_to_type t, cn, []⟩), .ok (), fr ++ [.install newHandle])
              else
                (self, .error (.NameError "invalid GRT class name"), fr)
            | Option.none =>
              (some (newHandle, ⟨str_to_type t, "", []⟩), .ok (), fr ++ [.install newHandle])

/-- `dict_dealloc`: deletes the owned handle (a no-op on NULL). -/
def dict_dealloc_trace (self : Option (Nat × DictRef)) : List MemEvent :=
  initFrees self

/-- One `dict_init` call in an adapter's lifetime, with the inputs that vary
per call. -/
structure InitCall where
  ctx? : Option PythonContext
  newHandle : Nat
  args : InitArgs

/-- Run a sequence of `dict_init` calls, threading `self->dict` and
accumulating the heap events. -/
def runInits (metaclasses : List String) : List InitCall → Option (Nat × DictRef) →
    Option (Nat × DictRef) × List MemEvent
  | [], s => (s, [])
  | c :: cs, s =>
    ((runInits metaclasses cs (dict_init c.ctx? metaclasses c.newHandle s c.args).1).1,
     (dict_init c.ctx? metaclasses c.newHandle s c.args).2.2 ++
       (runInits metaclasses cs (dict_init c.ctx? metaclasses c.newHandle s c.args).1).2)

/-- A full adapter lifetime: allocation zeroes `self->dict` (NULL), then some
number of `dict_init` calls, then `dict_dealloc`. -/
def lifecycleTrace (metaclasses : List String) (calls : List InitCall) : List MemEvent :=
  (runInits metaclasses calls Option.none).2 ++
    dict_dealloc_trace (runInits metaclasses calls Option.none).1

/-- The external iterator (`PyGRTDictIteratorObject`): reference count, the
"not yet advanced" flag, and the three cursors as positions into the backing
dictionary's entry sequence. -/
structure PyGRTDictIteratorObject where
  refcnt : Nat
  isNew : Bool
  iterator : Nat
  last : Nat
  endPos : Nat
deriving DecidableEq, Repr

/-- `dict_iter`: a fresh iterator with `iterator = begin`, `last = --end` and
`end` itself.  On the empty dictionary the C++ decrement of `begin() == end()`
is undefined; the spec (§4.2 design note) pins `last == begin == end` there,
which truncated subtraction reproduces. -/
def dict_iter (d : DictRef) : PyGRTDictIteratorObject :=
  { refcnt := 1, isNew := true, iterator := 0,
    last := d.entries.length - 1, endPos := d.entries.length }

/-- `dictiter_iter` (`tp_iter` of the iterator): `Py_INCREF(self)`, reset the
`isNew` flag, return the same object. -/
def dictiter_iter (s : PyGRTDictIteratorObject) : PyGRTDictIteratorObject :=
  { s with refcnt := s.refcnt + 1, isNew := true }

/-- `dictiter_iternext`: exhaustion test against `last`/`end` first, then an
advance unless the iterator is fresh, then the value (not the pair) at the
cursor is converted and returned.  The `getD` default models the out-of-range
dereference, unreachable from `dict_iter` states while the dictionary is not
mutated. -/
def dictiter_iternext (ctx : PythonContext) (d : DictRef) (s : PyGRTDictIteratorObject) :
    Except PyErr (PyValue × PyGRTDictIteratorObject) :=
  if s.iterator = s.last ∨ s.iterator = s.endPos then
    .error .StopIteration
  else
    let s' := if s.isNew then { s with isNew := false }
              else { s with iterator := s.iterator + 1, isNew := false }
    .ok (ctx.from_grt (d.entries.getD s'.iterator ("", .invalid)).2, s')

/-- Drive `dictiter_iternext` until it signals, collecting the yielded values;
`fuel` bounds the number of calls. -/
def iterCollect (ctx : PythonContext) (d : DictRef) : Nat → PyGRTDictIteratorObject → List PyValue
  | 0, _ => []
  | fuel + 1, s =>
    match dictiter_iternext ctx d s with
    | .error _ => []
    | .ok (v, s') => v :: iterCollect ctx d fuel s'

/-- Everything the external iterator of `d` yields before its first
`StopIteration` (the fuel exceeds the number of calls any run can make). -/
def iterYields (ctx : PythonContext) (d : DictRef) : List PyValue :=
  iterCollect ctx d (d.entries.length + 2) (dict_iter d)

/-- A three-entry dictionary whose keys were inserted in order a, b, c through
the subscript-assignment path. -/
def demo3 : DictRef :=
  (dict_ass_subscript (some theCtx)
    (dict_ass_subscript (some theCtx)
      (dict_ass_subscript (some theCtx) emptyDict (.str "a") (some (.intV 1))).2
      (.str "b") (some (.intV 2))).2
    (.str "c") (some (.intV 3))).2

/-- A two-entry dictionary with keys inserted in order a, b. -/
def demo2 : DictRef := ⟨.AnyType, "", [("a", .intV 1), ("b", .intV 2)]⟩

/-! ### Helper lemmas about the modelled dictionary -/

theorem has_key_eq_false_iff (d : DictRef) (k : String) :
    d.has_key k = false ↔ ∀ kv ∈ d.entries, kv.1 ≠ k := by
  simp [DictRef.has_key]

theorem remove_of_not_has_key (d : DictRef) (k : String) (h : d.has_key k = false) :
    d.remove k = d := by
  have h' := (has_key_eq_false_iff d k).1 h
  cases d with
  | mk ct cc es =>
    simp only [DictRef.remove, DictRef.mk.injEq, true_and]
    exact List.filter_eq_self.mpr (by simpa using h')

theorem setEntries_of_forall_ne (k : String) (v : ValueRef) :
    ∀ l : List (String × ValueRef), (∀ kv ∈ l, kv.1 ≠ k) → setEntries l k v = l ++ [(k, v)]
  | [], _ => rfl
  | kv :: rest, h => by
    have hk : kv.1 ≠ k := h kv (List.mem_cons_self kv rest)
    simp only [setEntries, if_neg hk, List.cons_append, List.cons.injEq, true_and]
    exact setEntries_of_forall_ne k v rest (fun x hx => h x (List.mem_cons_of_mem kv hx))

theorem find?_append_single (k : String) (v : ValueRef) :
    ∀ l : List (String × ValueRef), (∀ kv ∈ l, kv.1 ≠ k) →
      (l ++ [(k, v)]).find? (fun kv => kv.1 = k) = some (k, v)
  | [], _ => by simp
  | kv :: rest, h => by
    have hk : kv.1 ≠ k := h kv (List.mem_cons_self kv rest)
    simp only [List.cons_append, List.find?_cons, decide_eq_false hk]
    exact find?_append_single k v rest (fun x hx => h x (List.mem_cons_of_mem kv hx))

theorem has_key_of_get_some (d : DictRef) (k : String) (v : ValueRef)
    (h : d.get k = some v) : d.has_key k = true := by
  simp only [DictRef.get, Option.map_eq_some'] at h
  obtain ⟨kv, hfind, _⟩ := h
  have hmem := List.mem_of_find?_eq_some hfind
  have hp := List.find?_some hfind
  simp only [DictRef.has_key, List.any_eq_true]
  exact ⟨kv, hmem, hp⟩

/-! ### Claim theorems -/

/-- Claim C1, counterexample: for the dictionary whose keys were inserted in
order a, b, c, `Items()` does yield the (key, value) pairs in insertion order,
but the external iterator does not yield those pairs (it yields bare values),
so the claim that both yield the pairs is false. -/
theorem C1_pairs_counterexample :
    dict_items (some theCtx) demo3 Option.none =
      .ok [PyValue.pair (.str "a") (.intV 1), PyValue.pair (.str "b") (.intV 2),
           PyValue.pair (.str "c") (.intV 3)] ∧
    iterYields theCtx demo3 ≠
      [PyValue.pair (.str "a") (.intV 1), PyValue.pair (.str "b") (.intV 2),
       PyValue.pair (.str "c") (.intV 3)] := by
  exact ⟨rfl, by decide⟩

/-- Claim C1, amended: for the dictionary whose keys were inserted in order
a, b, c, `Items()` yields the (key, value) pairs in insertion order a, b, c
(not sorted order), visiting every entry; the external iterator also visits
every entry in insertion order a, b, c, but yields each entry's value alone
rather than the (key, value) pair. -/
theorem C1_insertion_order :
    dict_items (some theCtx) demo3 Option.none =
      .ok [PyValue.pair (.str "a") (.intV 1), PyValue.pair (.str "b") (.intV 2),
           PyValue.pair (.str "c") (.intV 3)] ∧
    iterYields theCtx demo3 = [PyValue.intV 1, PyValue.intV 2, PyValue.intV 3] :=
  ⟨rfl, rfl⟩

/-- Claim C2: as registered in `PyGRTDictMethods`, `has_key` is `METH_NOARGS`,
so every invocation fails — a call passing a key (string or not) is rejected
by CPython with `TypeError`, and a call passing nothing reaches the C function
with a NULL argument and fails its missing-argument check.  The operation can
never return the boolean the claim (and the function body) promise. -/
theorem C2_has_key_always_fails (d : DictRef) (callArgs : List PyValue) :
    ∃ e, call_has_key d callArgs = .error e := by
  cases callArgs with
  | nil => exact ⟨.ValueError "missing required argument", rfl⟩
  | cons a rest => exact ⟨.TypeError "has_key() takes no arguments", rfl⟩

/-- The body of `dict_has_key`, taken on its own with a real argument, does
satisfy the claimed contract: it never fails, returns a boolean, and a
non-string key reports "not found" rather than an error.  (Evidence that the
`METH_NOARGS` registration, not the specified behaviour, is the slip.) -/
theorem dict_has_key_body_contract (d : DictRef) (a : PyValue) :
    dict_has_key d (some a) =
      .ok (.boolV (match a with | .str s => d.has_key s | _ => false)) := by
  cases a <;> rfl

/-- Claim C3: a string-keyed assignment whose value is not the null sentinel
and whose conversion yields the invalid sentinel fails with `ValueError`
"grt.Dict may only be assigned other GRT or string/numeric values" and leaves
the dictionary unchanged.  (The null sentinel is excluded because the source
routes `Py_None` through its dedicated store-empty-value branch before any
conversion happens.) -/
theorem C3_invalid_conversion_rejected (ctx : PythonContext) (d : DictRef) (k : String)
    (v : PyValue) (hv : v ≠ PyValue.noneV) (hc : ctx.from_pyobject v = .invalid) :
    dict_ass_subscript (some ctx) d (.str k) (some v) =
      (.error (.ValueError "grt.Dict may only be assigned other GRT or string/numeric values"), d) := by
  cases v with
  | noneV => exact absurd rfl hv
  | boolV b => simp [dict_ass_subscript, hc]
  | intV n => simp [dict_ass_subscript, hc]
  | str s => simp [dict_ass_subscript, hc]
  | pair a b => simp [dict_ass_subscript, hc]
  | obj i => simp [dict_ass_subscript, hc]

/-- Witness for C3 at a concrete input: assigning an arbitrary foreign object
(unconvertible under the modelled conversion) to key "k" of the empty
dictionary fails with the exact message and leaves the dictionary empty. -/
theorem C3_witness :
    PyValue.obj 0 ≠ PyValue.noneV ∧
    theCtx.from_pyobject (PyValue.obj 0) = .invalid ∧
    dict_ass_subscript (some theCtx) emptyDict (.str "k") (some (.obj 0)) =
      (.error (.ValueError "grt.Dict may only be assigned other GRT or string/numeric values"), emptyDict) :=
  ⟨by decide, rfl, C3_invalid_conversion_rejected theCtx emptyDict "k" (.obj 0) (by decide) rfl⟩

/-- Claim C4: on an iterator freshly created over an empty dictionary, the
very first `Next()` signals `StopIteration` (and carries no value). -/
theorem C4_empty_dict_stops (ctx : PythonContext) (d : DictRef) (hd : d.entries = []) :
    dictiter_iternext ctx d (dict_iter d) = .error .StopIteration := by
  simp [dictiter_iternext, dict_iter, hd]

/-- Witness for C4: the concrete empty dictionary. -/
theorem C4_witness :
    emptyDict.entries = [] ∧
    dictiter_iternext theCtx emptyDict (dict_iter emptyDict) = .error .StopIteration :=
  ⟨rfl, C4_empty_dict_stops theCtx emptyDict rfl⟩

/-- Claim C6: the deletion form of `Set` (a NULL value) on a key absent from
the dictionary succeeds without error and leaves the dictionary unchanged. -/
theorem C6_remove_missing_noop (ctx : PythonContext) (d : DictRef) (k : String)
    (h : d.has_key k = false) :
    dict_ass_subscript (some ctx) d (.str k) Option.none = (.ok (), d) := by
  simp [dict_ass_subscript, remove_of_not_has_key d k h]

/-- Witness for C6: deleting the absent key "b" from a one-entry dictionary. -/
theorem C6_witness :
    DictRef.has_key ⟨.AnyType, "", [("a", .intV 1)]⟩ "b" = false ∧
    dict_ass_subscript (some theCtx) ⟨.AnyType, "", [("a", .intV 1)]⟩ (.str "b") Option.none =
      (.ok (), ⟨.AnyType, "", [("a", .intV 1)]⟩) :=
  ⟨by decide, C6_remove_missing_noop theCtx ⟨.AnyType, "", [("a", .intV 1)]⟩ "b" (by decide)⟩

/-- Claim C8: `SelfIterate` (`dictiter_iter`) returns the same iterator
instance — it bumps the reference count of its argument instead of allocating
a new iterator — sets the "not yet advanced" flag to true, and leaves the
cursor, last and end positions unchanged. -/
theorem C8_self_iterate_frame (s : PyGRTDictIteratorObject) :
    (dictiter_iter s).isNew = true ∧
    (dictiter_iter s).iterator = s.iterator ∧
    (dictiter_iter s).last = s.last ∧
    (dictiter_iter s).endPos = s.endPos ∧
    (dictiter_iter s).refcnt = s.refcnt + 1 :=
  ⟨rfl, rfl, rfl, rfl, rfl⟩

/-- Claim C10, counterexample: on the two-entry dictionary the iterator yields
2 values, not n − 1 = 1, and the entry at the precomputed last position (the
value of "b") is yielded. -/
theorem C10_last_entry_counterexample :
    (iterYields theCtx demo2).length ≠ demo2.count - 1 ∧
    PyValue.intV 2 ∈ iterYields theCtx demo2 := by
  exact ⟨by decide, by decide⟩

set_option maxRecDepth 4000 in
/-- Claim C5: `Construct` with a `type_hint` that names none of
{integer, real, string, dict, object} fails with a `TypeError` whose message
begins "grt type must be"; with a valid hint and a `class_name` missing from
the registered metaclass catalog it fails with `NameError`
"invalid GRT class name"; with a valid hint and a registered class it installs
a fresh dictionary constrained to that content type and class. -/
theorem C5_construct_validation (ctx : PythonContext) (mcs : List String) (nh : Nat)
    (self : Option (Nat × DictRef)) (t cn : String) (cn? : Option String) :
    (str_to_type t = .UnknownType →
      dict_init (some ctx) mcs nh self { type := some t, class_name := cn? } =
        (self,
         .error (.TypeError "grt type must be grt.integer, double, string, dict, dict or object"),
         initFrees self)) ∧
    ("grt type must be grt.integer, double, string, dict, dict or object").take 16 =
      "grt type must be" ∧
    (str_to_type t ≠ .UnknownType → mcs.contains cn = false →
      dict_init (some ctx) mcs nh self { type := some t, class_name := some cn } =
        (self, .error (.NameError "invalid GRT class name"), initFrees self)) ∧
    (str_to_type t ≠ .UnknownType → mcs.contains cn = true →
      dict_init (some ctx) mcs nh self { type := some t, class_name := some cn } =
        (some (nh, ⟨str_to_type t, cn, []⟩), .ok (), initFrees self ++ [.install nh])) := by
  refine ⟨fun ht => ?_, by decide, fun ht hcn => ?_, fun ht hcn => ?_⟩
  · simp [dict_init, ht]
  · have h' : ¬ cn ∈ mcs := by simpa using hcn
    simp [dict_init, ht, h']
  · have h' : cn ∈ mcs := by simpa using hcn
    simp [dict_init, ht, h']

/-- Witness for C5 at concrete inputs: hint "float" is rejected with the
"grt type must be" message; hint "object" with unregistered class "db.Bogus"
is rejected with "invalid GRT class name"; hint "object" with registered
class "db.Table" constructs an object-typed dictionary of that class. -/
theorem C5_witness :
    dict_init (some theCtx) ["db.Table"] 3 Option.none
        { type := some "float", class_name := Option.none } =
      (Option.none,
       .error (.TypeError "grt type must be grt.integer, double, string, dict, dict or object"),
       []) ∧
    dict_init (some theCtx) ["db.Table"] 3 Option.none
        { type := some "object", class_name := some "db.Bogus" } =
      (Option.none, .error (.NameError "invalid GRT class name"), []) ∧
    dict_init (some theCtx) ["db.Table"] 3 Option.none
        { type := some "object", class_name := some "db.Table" } =
      (some (3, ⟨.ObjectType, "db.Table", []⟩), .ok (), [.install 3]) :=
  ⟨(C5_construct_validation theCtx ["db.Table"] 3 Option.none "float" "x" Option.none).1 (by decide),
   (C5_construct_validation theCtx ["db.Table"] 3 Option.none "object" "db.Bogus" Option.none).2.2.1
     (by decide) (by decide),
   (C5_construct_validation theCtx ["db.Table"] 3 Option.none "object" "db.Table" Option.none).2.2.2
     (by decide) (by decide)⟩

/-- Claim C7: provided the converted default satisfies the dictionary's
content constraint (in particular always, for an unconstrained dictionary),
`SetDefault` on an absent key appends the converted default under that key and
returns the re-fetched stored value (the converted default's host form), and
on a present key returns the existing stored value converted, leaving the
dictionary untouched. -/
theorem C7_setdefault (ctx : PythonContext) (d : DictRef) (k : String) (def_ : PyValue)
    (hconf : (ctx.from_pyobject def_).conforms d.content_type = true) :
    (d.has_key k = false →
      dict_setdefault (some ctx) d k def_ =
        (.ok (ctx.from_grt (ctx.from_pyobject def_)),
         { d with entries := d.entries ++ [(k, ctx.from_pyobject def_)] })) ∧
    (∀ v, d.get k = some v → dict_setdefault (some ctx) d k def_ = (.ok (ctx.from_grt v), d)) := by
  constructor
  · intro habs
    have hne := (has_key_eq_false_iff d k).1 habs
    have hset : d.set k (ctx.from_pyobject def_) =
        .ok { d with entries := d.entries ++ [(k, ctx.from_pyobject def_)] } := by
      simp only [DictRef.set, if_pos hconf, setEntries_of_forall_ne k (ctx.from_pyobject def_) d.entries hne]
    have hget : (DictRef.mk d.content_type d.content_class
        (d.entries ++ [(k, ctx.from_pyobject def_)])).get k = some (ctx.from_pyobject def_) := by
      simp only [DictRef.get, find?_append_single k (ctx.from_pyobject def_) d.entries hne,
        Option.map_some']
    simp only [dict_setdefault, habs, Bool.false_eq_true, if_false, hset]
    simp only [hget]
  · intro v hv
    have hk := has_key_of_get_some d k v hv
    simp only [dict_setdefault, hk, if_true, hv]

/-- Witness for C7: on the empty dictionary, `setdefault("a", 1)` stores the
converted default and returns it; on the resulting dictionary,
`setdefault("a", 9)` returns the already-stored value unchanged and does not
overwrite it. -/
theorem C7_witness :
    dict_setdefault (some theCtx) emptyDict "a" (.intV 1) =
      (.ok (.intV 1), ⟨.AnyType, "", [("a", .intV 1)]⟩) ∧
    dict_setdefault (some theCtx) ⟨.AnyType, "", [("a", .intV 1)]⟩ "a" (.intV 9) =
      (.ok (.intV 1), ⟨.AnyType, "", [("a", .intV 1)]⟩) :=
  ⟨(C7_setdefault theCtx emptyDict "a" (.intV 1) (by decide)).1 (by decide),
   (C7_setdefault theCtx ⟨.AnyType, "", [("a", .intV 1)]⟩ "a" (.intV 9) (by decide)).2
     (.intV 1) rfl⟩

/-! ### Heap-event lemmas for the construction lifecycle -/

theorem install_not_mem_initFrees (s : Option (Nat × DictRef)) (g : Nat) :
    MemEvent.install g ∉ initFrees s := by
  cases s with
  | none => simp [initFrees]
  | some p => cases p with | mk h dr => simp [initFrees]

/-- Every `dict_init` execution has one of three shapes: it exits before the
initial `delete` (empty trace, field untouched), it deletes the old handle and
then fails (field left dangling at its old value), or it deletes the old
handle and installs the freshly allocated one. -/
theorem dict_init_cases (ctx? : Option PythonContext) (mcs : List String) (nh : Nat)
    (s : Option (Nat × DictRef)) (a : InitArgs) :
    ((dict_init ctx? mcs nh s a).2.2 = [] ∧ (dict_init ctx? mcs nh s a).1 = s) ∨
    ((dict_init ctx? mcs nh s a).2.2 = initFrees s ∧ (dict_init ctx? mcs nh s a).1 = s) ∨
    (∃ dr, (dict_init ctx? mcs nh s a).2.2 = initFrees s ++ [.install nh] ∧
      (dict_init ctx? mcs nh s a).1 = some (nh, dr)) := by
  rcases ctx? with _ | ctx
  · exact Or.inl ⟨rfl, rfl⟩
  rcases a with ⟨pok, vp, ty, cnm⟩
  cases pok
  · exact Or.inl ⟨rfl, rfl⟩
  rcases vp with _ | vp'
  · rcases ty with _ | t
    · exact Or.inr (Or.inr ⟨emptyDict, rfl, rfl⟩)
    by_cases ht : str_to_type t = .UnknownType
    · refine Or.inr (Or.inl ?_)
      constructor <;> simp [dict_init, ht]
    rcases cnm with _ | cn
    · refine Or.inr (Or.inr ⟨⟨str_to_type t, "", []⟩, ?_, ?_⟩) <;> simp [dict_init, ht]
    by_cases hc : cn ∈ mcs
    · refine Or.inr (Or.inr ⟨⟨str_to_type t, cn, []⟩, ?_, ?_⟩) <;> simp [dict_init, ht, hc]
    · refine Or.inr (Or.inl ?_)
      constructor <;> simp [dict_init, ht, hc]
  rcases vp' with e | c
  · refine Or.inr (Or.inl ?_)
    constructor <;> simp [dict_init]
  · exact Or.inr (Or.inr ⟨c, rfl, rfl⟩)

/-- A handle owned on entry to a run of `dict_init` calls is freed somewhere
in the rest of the adapter's lifetime. -/
theorem owned_freed (mcs : List String) : ∀ (cs : List InitCall) (h : Nat) (dr : DictRef),
    MemEvent.free h ∈
      (runInits mcs cs (some (h, dr))).2 ++ dict_dealloc_trace (runInits mcs cs (some (h, dr))).1
  | [], h, dr => by simp [runInits, dict_dealloc_trace, initFrees]
  | c :: cs, h, dr => by
    rcases dict_init_cases c.ctx? mcs c.newHandle (some (h, dr)) c.args with
      ⟨ht, hs⟩ | ⟨ht, hs⟩ | ⟨dr', ht, _⟩
    · have ih := owned_freed mcs cs h dr
      simp only [runInits, ht, hs, List.nil_append]
      exact ih
    · simp [runInits, ht, initFrees]
    · simp [runInits, ht, initFrees]

/-- Every handle installed at any point of the adapter's lifetime is freed at
some point of that lifetime. -/
theorem every_install_freed (mcs : List String) :
    ∀ (cs : List InitCall) (s : Option (Nat × DictRef)) (g : Nat),
    MemEvent.install g ∈ (runInits mcs cs s).2 ++ dict_dealloc_trace (runInits mcs cs s).1 →
    MemEvent.free g ∈ (runInits mcs cs s).2 ++ dict_dealloc_trace (runInits mcs cs s).1
  | [], s, g, hmem => by
    simp only [runInits, List.nil_append, dict_dealloc_trace] at hmem
    exact absurd hmem (install_not_mem_initFrees s g)
  | c :: cs, s, g, hmem => by
    simp only [runInits, List.append_assoc, List.mem_append] at hmem ⊢
    rcases hmem with hmem | hmem
    · rcases dict_init_cases c.ctx? mcs c.newHandle s c.args with
        ⟨ht, _⟩ | ⟨ht, _⟩ | ⟨dr', ht, hs⟩
      · rw [ht] at hmem; simp at hmem
      · rw [ht] at hmem; exact absurd hmem (install_not_mem_initFrees s g)
      · rw [ht] at hmem
        have hg : g = c.newHandle := by
          rcases List.mem_append.1 hmem with hf | hl
          · exact absurd hf (install_not_mem_initFrees s g)
          · simpa using hl
        subst hg
        rw [hs]
        right
        simpa [List.mem_append] using owned_freed mcs cs c.newHandle dr' 
    · have ih := every_install_freed mcs cs (dict_init c.ctx? mcs c.newHandle s c.args).1 g
        (by simpa [List.mem_append] using hmem)
      right
      simpa [List.mem_append] using ih

/-- Claim C9: in every `Construct` execution on a live adapter that installs a
new backing-dictionary handle, the heap trace is exactly "release the old
handle, then install the new one" (release strictly first); and over a whole
adapter lifetime — any sequence of re-constructions, successful or failing,
closed by `Destroy` — every handle ever installed is released. -/
theorem C9_handle_release (ctx? : Option PythonContext) (mcs : List String) (nh h : Nat)
    (dr : DictRef) (a : InitArgs) (calls : List InitCall) :
    (∀ g, MemEvent.install g ∈ (dict_init ctx? mcs nh (some (h, dr)) a).2.2 →
      (dict_init ctx? mcs nh (some (h, dr)) a).2.2 = [.free h, .install g]) ∧
    (∀ g, MemEvent.install g ∈ lifecycleTrace mcs calls →
      MemEvent.free g ∈ lifecycleTrace mcs calls) := by
  constructor
  · intro g hg
    rcases dict_init_cases ctx? mcs nh (some (h, dr)) a with ⟨ht, _⟩ | ⟨ht, _⟩ | ⟨dr', ht, _⟩
    · rw [ht] at hg; simp at hg
    · rw [ht] at hg; exact absurd hg (install_not_mem_initFrees _ g)
    · rw [ht] at hg ⊢
      have hgnh : g = nh := by
        rcases List.mem_append.1 hg with hf | hl
        · exact absurd hf (install_not_mem_initFrees _ g)
        · simpa using hl
      subst hgnh
      simp [initFrees]
  · intro g hg
    exact every_install_freed mcs calls Option.none g hg

/-- Witness for C9: re-constructing an adapter that owns handle 5, with the
allocator handing out handle 7, frees 5 before installing 7; and in the
lifetime consisting of that one construction plus teardown, handle 7 is
freed. -/
theorem C9_witness :
    (dict_init (some theCtx) [] 7 (some (5, emptyDict)) {}).2.2 =
      [.free 5, .install 7] ∧
    MemEvent.free 7 ∈ lifecycleTrace [] [⟨some theCtx, 7, {}⟩] :=
  ⟨(C9_handle_release (some theCtx) [] 7 5 emptyDict {} []).1 7 (by decide),
   (C9_handle_release (some theCtx) [] 7 5 emptyDict {} [⟨some theCtx, 7, {}⟩]).2 7 (by decide)⟩

/-- One-step unfolding of `iterCollect`. -/
theorem iterCollect_succ (ctx : PythonContext) (d : DictRef) (fuel : Nat)
    (s : PyGRTDictIteratorObject) :
    iterCollect ctx d (fuel + 1) s =
      match dictiter_iternext ctx d s with
      | .error _ => []
      | .ok (v, s') => v :: iterCollect ctx d fuel s' := rfl

/-- From a positioned (non-fresh) state at cursor `i`, with cursors as
`dict_iter` computes them and enough fuel, the iterator yields exactly the
values of the entries after position `i`, stopping when the cursor reaches the
precomputed last position. -/
theorem iterCollect_pos (ctx : PythonContext) (d : DictRef) (r : Nat) :
    ∀ (fuel i : Nat), d.entries.length - 1 ≤ i + fuel → i < d.entries.length →
    iterCollect ctx d fuel ⟨r, false, i, d.entries.length - 1, d.entries.length⟩ =
      (d.entries.drop (i + 1)).map (fun kv => ctx.from_grt kv.2)
  | 0, i, hf, hi => by
    have hdrop : d.entries.drop (i + 1) = [] := List.drop_eq_nil_of_le (by omega)
    simp [iterCollect, hdrop]
  | fuel + 1, i, hf, hi => by
    by_cases hlast : i = d.entries.length - 1
    · have hdrop : d.entries.drop (i + 1) = [] := List.drop_eq_nil_of_le (by omega)
      have hstop : dictiter_iternext ctx d
          ⟨r, false, i, d.entries.length - 1, d.entries.length⟩ = .error .StopIteration := by
        simp [dictiter_iternext, hlast]
      simp [iterCollect, hstop, hdrop]
    · have hne : ¬ (i = d.entries.length - 1 ∨ i = d.entries.length) := by omega
      have hi1 : i + 1 < d.entries.length := by omega
      have hstep : dictiter_iternext ctx d
          ⟨r, false, i, d.entries.length - 1, d.entries.length⟩ =
          .ok (ctx.from_grt (d.entries.getD (i + 1) ("", .invalid)).2,
               ⟨r, false, i + 1, d.entries.length - 1, d.entries.length⟩) := by
        simp [dictiter_iternext, hne]
      have ih := iterCollect_pos ctx d r fuel (i + 1) (by omega) hi1
      simp only [iterCollect, hstep, ih]
      rw [List.getD_eq_getElem d.entries ("", ValueRef.invalid) hi1,
        List.drop_eq_getElem_cons hi1, List.map_cons]

/-- Claim C10, amended: for a dictionary with n entries and no mutation during
iteration, the external iterator yields nothing when n ≤ 1 — in particular for
n = 1 the single entry (which sits at the precomputed last position) is never
yielded — and for n ≥ 2 it yields all n entry values, the last entry included
(the exhaustion test compares the cursor to the last position before
advancing, so the cursor only equals it after that entry has been returned);
each yielded result is the entry's value alone, not a (key, value) pair. -/
theorem C10_iterator_yields (ctx : PythonContext) (d : DictRef) :
    iterYields ctx d =
      if d.entries.length ≤ 1 then []
      else d.entries.map (fun kv => ctx.from_grt kv.2) := by
  by_cases h1 : d.entries.length ≤ 1
  · rw [if_pos h1]
    have hstop : dictiter_iternext ctx d (dict_iter d) = .error .StopIteration := by
      simp only [dictiter_iternext, dict_iter]
      rw [if_pos (by omega)]
    rw [iterYields, show d.entries.length + 2 = d.entries.length + 1 + 1 from rfl]
    simp [iterCollect, hstop]
  · rw [if_neg h1]
    have hne : ¬ ((0 : Nat) = d.entries.length - 1 ∨ (0 : Nat) = d.entries.length) := by omega
    have h0 : 0 < d.entries.length := by omega
    have hstep : dictiter_iternext ctx d (dict_iter d) =
        .ok (ctx.from_grt (d.entries.getD 0 ("", .invalid)).2,
             ⟨1, false, 0, d.entries.length - 1, d.entries.length⟩) := by
      simp [dictiter_iternext, dict_iter, hne]
    rw [iterYields, show d.entries.length + 2 = d.entries.length + 1 + 1 from rfl,
      iterCollect_succ, hstep]
    show ctx.from_grt (d.entries.getD 0 ("", .invalid)).2 ::
      iterCollect ctx d (d.entries.length + 1)
        ⟨1, false, 0, d.entries.length - 1, d.entries.length⟩ =
      d.entries.map (fun kv => ctx.from_grt kv.2)
    rw [iterCollect_pos ctx d 1 (d.entries.length + 1) 0 (by omega) h0]
    rw [List.getD_eq_getElem d.entries ("", ValueRef.invalid) h0]
    have hsplit : d.entries = d.entries[0] :: d.entries.drop 1 := by
      conv_lhs => rw [← List.drop_zero d.entries]
      exact List.drop_eq_getElem_cons h0
    conv_rhs => rw [hsplit]
    rw [List.map_cons]
